import Mathlib

/-!
Verification of the ExitNodeToggle repository's status-and-toggle
reconciliation logic, shallowly embedded from the Python sources
(`src/main.py` for the Windows variant, `src/main_linux.py` for the Linux
variant, `src/main_macos.py` and the bundled
`src/dist/Exit Node Toggle.app/Contents/Resources/main_macos.py` for the
macOS variants).

Python values decoded from JSON are embedded as the `Json` type below, with
`Json.null` standing for Python `None` (json.loads maps JSON null to None,
and `dict.get` on an absent key also yields None, so the two coincide
exactly as in Python).  A process's standard output is embedded by the
outcome of `json.loads` on it (`PyOut`), since that is its only consumer in
the status path; the macOS retry path, which inspects raw output text, keeps
plain strings.  External-process behaviour (exit code, output, raised
exceptions) is an input to each embedded function, mirroring the try/except
structure of the source.
-/

/-- Python value decoded from JSON.  `null` is Python `None`.  Objects are
association lists (keys unique after `json.loads`, first binding wins). -/
inductive Json where
  | null : Json
  | bool : Bool → Json
  | num : Int → Json
  | str : String → Json
  | arr : List Json → Json
  | obj : List (String × Json) → Json


/-- Python `d.get(k)`: the stored value, or `None` when the key is absent. -/
def dictGet (kvs : List (String × Json)) (k : String) : Json :=
  (kvs.lookup k).getD Json.null

/-- Python `d.get(k, default)`: the stored value, or `default` when absent. -/
def dictGetD (kvs : List (String × Json)) (k : String) (d : Json) : Json :=
  (kvs.lookup k).getD d

/-- Python truthiness of a decoded JSON value (`if not x` tests). -/
def pyFalsy : Json → Bool
  | Json.null => true
  | Json.bool b => !b
  | Json.num n => n == 0
  | Json.str s => s.isEmpty
  | Json.arr xs => xs.isEmpty
  | Json.obj kvs => kvs.isEmpty

/-- Standard output of a completed CLI invocation, represented by the
outcome of `json.loads` on it: either it fails to parse
(`json.JSONDecodeError`) or yields a decoded value. -/
inductive PyOut where
  | invalidJson : PyOut
  | parsed : Json → PyOut


/-- Outcome of `subprocess.run` in the Windows variant (`src/main.py`),
which passes no timeout: the process completed with an exit code and
captured stdout, or `subprocess.run` raised `FileNotFoundError`, or it
raised some other `Exception`. -/
inductive SubprocResult where
  | completed : Int → PyOut → SubprocResult
  | fileNotFound : SubprocResult
  | otherExc : SubprocResult


/-- `TailscaleToggle.get_status` from `src/main.py` (the macOS
`src/main_macos.py` body is identical).  Runs `tailscale status --json`;
non-zero exit, JSON decode failure, `FileNotFoundError` and any other
exception (including `data.get` / `.get` raising `AttributeError` on a
non-dict) are all caught and yield `(False, None)`. -/
def get_status_win (o : SubprocResult) : Bool × Json :=
  match o with
  | SubprocResult.fileNotFound => (false, Json.null)
  | SubprocResult.otherExc => (false, Json.null)
  | SubprocResult.completed rc out =>
    if rc ≠ 0 then (false, Json.null)
    else
      match out with
      | PyOut.invalidJson => (false, Json.null)
      | PyOut.parsed data =>
        match data with
        | Json.obj kvs =>
          match dictGet kvs "ExitNodeStatus" with
          | Json.null => (false, Json.null)
          | Json.obj inner => (true, dictGetD inner "ID" (Json.str "Unknown"))
          | _ => (false, Json.null)
        | _ => (false, Json.null)

/-- How an attempted `subprocess.run` of the tailscale binary behaves in the
Linux variant's `_run` (`src/main_linux.py`), which passes `timeout=10`:
completion with exit code, stdout and stderr; `FileNotFoundError`;
`subprocess.TimeoutExpired`; or any other raised `Exception`. -/
inductive ExecOutcome where
  | completed : Int → PyOut → String → ExecOutcome
  | fileNotFound : ExecOutcome
  | timeoutExpired : String → ExecOutcome
  | otherRaised : String → ExecOutcome


/-- Result object of `TailscaleController._run`: always a
`subprocess.CompletedProcess`.  The failure branches build it with stdout
`""` (embedded as `PyOut.invalidJson`, the empty string not being JSON). -/
structure CompletedProcess where
  returncode : Int
  stdout : PyOut
  stderr : String


/-- `TailscaleController._run` from `src/main_linux.py`: returns the
completed process as-is; on `FileNotFoundError` returns a dummy
`CompletedProcess` with code 127; on any other exception (including
`TimeoutExpired`, a subclass of `Exception`) returns one with code 1 and
the exception text as stderr.  It never raises. -/
def ts_run : ExecOutcome → CompletedProcess
  | ExecOutcome.completed rc out err => ⟨rc, out, err⟩
  | ExecOutcome.fileNotFound => ⟨127, PyOut.invalidJson, "Binary not found"⟩
  | ExecOutcome.timeoutExpired msg => ⟨1, PyOut.invalidJson, msg⟩
  | ExecOutcome.otherRaised msg => ⟨1, PyOut.invalidJson, msg⟩

/-- `TailscaleController.get_status` from `src/main_linux.py`.  Note the
truthiness test `if not exit_node_status` (so a `null`, `{}` or other falsy
value reads as inactive), and the surrounding `except Exception` turning
`.get` on a truthy non-dict into `(False, None)`. -/
def get_status_linux (o : ExecOutcome) : Bool × Json :=
  let res := ts_run o
  if res.returncode ≠ 0 then (false, Json.null)
  else
    match res.stdout with
    | PyOut.invalidJson => (false, Json.null)
    | PyOut.parsed data =>
      match data with
      | Json.obj kvs =>
        let ens := dictGet kvs "ExitNodeStatus"
        if pyFalsy ens then (false, Json.null)
        else
          match ens with
          | Json.obj inner => (true, dictGetD inner "ID" (Json.str "Unknown"))
          | _ => (false, Json.null)
      | _ => (false, Json.null)

/-- Configuration as loaded by the Linux variant's `Config.__init__`
(`src/main_linux.py`), reduced to the fields the controller reads. -/
structure LinuxConfig where
  tailscale_exe : String
  exit_node_ip : String
  valid : Bool

/-- The three ways `Config.__init__` can go in `src/main_linux.py`: no
candidate config file exists, the file fails to parse, or it parses and
yields the two string fields (with their `data.get` defaults applied). -/
inductive ConfigLoad where
  | noFile : ConfigLoad
  | parseError : ConfigLoad
  | loaded : String → String → ConfigLoad

/-- `Config.__init__` from `src/main_linux.py`: both failure branches fall
back to `tailscale_exe = "tailscale"`, `exit_node_ip = ""`, `valid = False`;
a loaded config is valid unless the identifier is empty or the template
placeholder. -/
def mkConfigLinux : ConfigLoad → LinuxConfig
  | ConfigLoad.noFile => ⟨"tailscale", "", false⟩
  | ConfigLoad.parseError => ⟨"tailscale", "", false⟩
  | ConfigLoad.loaded exe ip =>
    ⟨exe, ip, !(ip.isEmpty || ip == "YOUR_EXIT_NODE_IP_HERE")⟩

/-- `TailscaleController.enable_exit_node` from `src/main_linux.py`.
Besides the success flag it records the argument lists of the `subprocess`
invocations attempted, so that "without invoking the external binary" is a
statement about this function's value. -/
def enable_exit_node_linux (cfg : LinuxConfig) (o : ExecOutcome) :
    Bool × List (List String) :=
  if !cfg.valid then (false, [])
  else
    let cmd := [cfg.tailscale_exe, "set", "--exit-node=" ++ cfg.exit_node_ip]
    ((ts_run o).returncode == 0, [cmd])

/-- `TailscaleController.disable_exit_node` from `src/main_linux.py`: no
validity guard, no dependence on any prior state. -/
def disable_exit_node_linux (cfg : LinuxConfig) (o : ExecOutcome) :
    Bool × List (List String) :=
  let cmd := [cfg.tailscale_exe, "set", "--exit-node="]
  ((ts_run o).returncode == 0, [cmd])

/-- `TailscaleToggle.enable_exit_node` from `src/main.py` (Windows): runs
the set command unconditionally — there is no configuration-validity check —
and reports `returncode == 0`; any raised exception is caught and yields
`False`.  The second component records the `subprocess.run` attempts. -/
def enable_exit_node_win (exe ip : String) (o : SubprocResult) :
    Bool × List (List String) :=
  let cmd := [exe, "set", "--exit-node=" ++ ip]
  match o with
  | SubprocResult.completed rc _ => (rc == 0, [cmd])
  | SubprocResult.fileNotFound => (false, [cmd])
  | SubprocResult.otherExc => (false, [cmd])

/-- `TailscaleToggle.disable_exit_node` from `src/main.py` (Windows). -/
def disable_exit_node_win (exe : String) (o : SubprocResult) :
    Bool × List (List String) :=
  let cmd := [exe, "set", "--exit-node="]
  match o with
  | SubprocResult.completed rc _ => (rc == 0, [cmd])
  | SubprocResult.fileNotFound => (false, [cmd])
  | SubprocResult.otherExc => (false, [cmd])

/-- Result of a Python call that either returns a value or raises. -/
inductive PyResult (α : Type) where
  | ok : α → PyResult α
  | exc : PyResult α

/-- Which toggle operation the reconciliation loop invokes. -/
inductive Op where
  | enable : Op
  | disable : Op
deriving DecidableEq

/-- State of the Tk toggle button. -/
inductive BtnState where
  | normal : BtnState
  | disabled : BtnState
deriving DecidableEq

/-- Observable outcome of one `App.toggle_node` run in `src/main.py`. -/
structure WinToggleRun where
  op : Op
  isOnAfterExec : Bool
  isOnFinal : Bool
  errorShown : Bool
  refreshIssued : Bool
  btnFinal : BtnState
  raised : Bool

/-- `App.toggle_node` from `src/main.py` (Windows).  The button is disabled
on entry; the executor for the inverse of `is_on` is invoked; on success
`is_on` is flipped and the UI updated; on failure an error box is shown and
`refresh_status` re-reads ground truth (its `is_active` reading is the
`refreshOutcome` argument); the `finally` clause restores the button to
"normal" on every exit path, raised exceptions included.
`isOnAfterExec` is the displayed state after the toggle branch itself,
before any forced refresh overwrites it. -/
def toggle_node_win (isOn : Bool) (execOutcome : PyResult Bool)
    (refreshOutcome : PyResult Bool) : WinToggleRun :=
  let op := if isOn then Op.disable else Op.enable
  match execOutcome with
  | PyResult.exc =>
    { op := op, isOnAfterExec := isOn, isOnFinal := isOn, errorShown := false,
      refreshIssued := false, btnFinal := BtnState.normal, raised := true }
  | PyResult.ok true =>
    { op := op, isOnAfterExec := !isOn, isOnFinal := !isOn, errorShown := false,
      refreshIssued := false, btnFinal := BtnState.normal, raised := false }
  | PyResult.ok false =>
    match refreshOutcome with
    | PyResult.exc =>
      { op := op, isOnAfterExec := isOn, isOnFinal := isOn, errorShown := true,
        refreshIssued := true, btnFinal := BtnState.normal, raised := true }
    | PyResult.ok b =>
      { op := op, isOnAfterExec := isOn, isOnFinal := b, errorShown := true,
        refreshIssued := true, btnFinal := BtnState.normal, raised := false }

/-- Observable outcome of one `ExitNodeToggleApp.toggle_node` run in
`src/main_macos.py`. -/
structure MacToggleRun where
  op : Op
  isOnAfterExec : Bool
  isOnFinal : Bool
  errorShown : Bool
  refreshIssued : Bool
  raised : Bool

/-- `ExitNodeToggleApp.toggle_node` from `src/main_macos.py`: same shape as
the Windows variant, but any exception is caught by the handler (alert shown,
menu title restored) instead of propagating, and success additionally posts a
notification (not modelled, irrelevant to the claims). -/
def toggle_node_macos (isOn : Bool) (execOutcome : PyResult Bool)
    (refreshOutcome : PyResult Bool) : MacToggleRun :=
  let op := if isOn then Op.disable else Op.enable
  match execOutcome with
  | PyResult.exc =>
    { op := op, isOnAfterExec := isOn, isOnFinal := isOn, errorShown := true,
      refreshIssued := false, raised := false }
  | PyResult.ok true =>
    { op := op, isOnAfterExec := !isOn, isOnFinal := !isOn, errorShown := false,
      refreshIssued := false, raised := false }
  | PyResult.ok false =>
    match refreshOutcome with
    | PyResult.exc =>
      { op := op, isOnAfterExec := isOn, isOnFinal := isOn, errorShown := true,
        refreshIssued := true, raised := false }
    | PyResult.ok b =>
      { op := op, isOnAfterExec := isOn, isOnFinal := b, errorShown := true,
        refreshIssued := true, raised := false }

/-- What one poll tick displays (the text parts that depend on `is_on`;
colours, emoji prefixes and tray-icon bitmaps track the same branch). -/
structure Display where
  statusText : String
  btnText : String
deriving DecidableEq

/-- `App.update_ui` from `src/main.py`: renders the presentation from
`is_on` alone. -/
def update_ui_win (isOn : Bool) : Display :=
  if isOn then ⟨"Connected via Exit Node", "Disable Exit Node"⟩
  else ⟨"Direct Connection", "Enable Exit Node"⟩

/-- Result of one poll tick. -/
structure RefreshTick where
  is_on : Bool
  uiCalls : Nat
  shown : Display

/-- `App.refresh_status` from `src/main.py` (Windows): assigns `is_on` from
the Status Reader and then calls `update_ui()` unconditionally — the
previous displayed state (`oldIsOn`) is never consulted. -/
def refresh_status_win (statusActive : Bool) (_oldIsOn : Bool) : RefreshTick :=
  { is_on := statusActive, uiCalls := 1, shown := update_ui_win statusActive }

/-- The `is_on`-dependent widget texts set by `App.refresh_status` in
`src/main_linux.py` (the linux variant inlines the rendering in the tick). -/
def render_linux (isOn : Bool) : Display :=
  if isOn then ⟨"Connected via Exit Node", "Disable Exit Node"⟩
  else ⟨"Direct Connection", "Enable Exit Node"⟩

/-- `App.refresh_status` from `src/main_linux.py`: every 5-second tick sets
`is_on` and reconfigures the status label and button, with no comparison
against the previously displayed state. -/
def refresh_status_linux (statusActive : Bool) (_oldIsOn : Bool) : RefreshTick :=
  { is_on := statusActive, uiCalls := 1, shown := render_linux statusActive }

/-- `ExitNodeToggleApp.refresh_status` from the bundled
`src/dist/Exit Node Toggle.app/Contents/Resources/main_macos.py`: assigns
`is_on` and calls `update_ui()` unconditionally on every 30-second tick. -/
def refresh_status_macdist (statusActive : Bool) (_oldIsOn : Bool) : RefreshTick :=
  { is_on := statusActive, uiCalls := 1, shown := update_ui_win statusActive }

/-- A completed process in the bundled macOS variant's `_run_tailscale`,
whose raw output text is inspected for the GUI-down marker (so stdout and
stderr stay plain strings here). -/
structure CPStr where
  returncode : Int
  stdout : String
  stderr : String
deriving DecidableEq

/-- ASCII lowercasing of one character (what Python's `str.lower` does to
the ASCII marker text these checks involve). -/
def lowerChar (c : Char) : Char :=
  if 65 ≤ c.toNat ∧ c.toNat ≤ 90 then Char.ofNat (c.toNat + 32) else c

/-- Whether `pat` starts the character list `s`. -/
def startsWithSeq : List Char → List Char → Bool
  | [], _ => true
  | _ :: _, [] => false
  | a :: as, b :: bs => a == b && startsWithSeq as bs

/-- Whether `pat` occurs inside the character list `s`
(Python's `pat in s`). -/
def containsSeq (pat : List Char) : List Char → Bool
  | [] => startsWithSeq pat []
  | c :: cs => startsWithSeq pat (c :: cs) || containsSeq pat cs

/-- Whether `pat` occurs inside `s.lower()` (Python's `pat in s.lower()`). -/
def containsSub (s pat : String) : Bool :=
  containsSeq pat.toList (s.toList.map lowerChar)

/-- The GUI-down test in `_run_tailscale`
(`src/dist/Exit Node Toggle.app/Contents/Resources/main_macos.py`):
`"failed to start" in (result.stdout or "").lower() or ... stderr ...`. -/
def guiFailure (r : CPStr) : Bool :=
  containsSub r.stdout "failed to start" ||
    containsSub r.stderr "failed to start"

/-- `TailscaleToggle._run_tailscale` from the bundled macOS variant,
embedded with explicit fuel for its self-recursion.  `oracle n` is the
result of the (n+1)-th `subprocess.run` of the CLI command; `tried` is the
instance field `_tried_start` on entry.  The value is
`some (result, tried', cliInvocations, guiLaunches)`; `none` means the
recursion would exceed the given fuel.  When the captured output contains
the GUI-down marker and `_tried_start` is still false,
`_ensure_gui_running` sets `_tried_start = True`, launches the GUI once
(`open -g -a Tailscale`), and the command is re-run by a recursive call —
which then sees `_tried_start = True` and can never retry again. -/
def run_tailscale (oracle : Nat → CPStr) :
    Nat → Nat → Bool → Option (CPStr × Bool × Nat × Nat)
  | 0, _, _ => none
  | fuel + 1, idx, tried =>
    let r := oracle idx
    if guiFailure r && !tried then
      match run_tailscale oracle fuel (idx + 1) true with
      | none => none
      | some (res, t, inv, launches) => some (res, t, inv + 1, launches + 1)
    else
      some (r, tried, 1, 0)

/-- The keyword arguments of a `subprocess.run` call site that bound its
execution (only `timeout` matters to the claims; `capture_output` and
`text` are carried for fidelity). -/
structure SubprocessCall where
  capture_output : Bool
  text : Bool
  timeout : Option Nat

/-- The `subprocess.run` call in `TailscaleController._run`
(`src/main_linux.py` line 180): `capture_output=True, text=True,
check=False, timeout=10`. -/
def linuxRunCall : SubprocessCall := ⟨true, true, some 10⟩

/-- The `subprocess.run` call in `TailscaleToggle.get_status`
(`src/main.py` line 126): no `timeout` keyword is passed. -/
def winStatusCall : SubprocessCall := ⟨true, true, none⟩

/-- The `subprocess.run` calls in `TailscaleToggle.enable_exit_node` /
`disable_exit_node` (`src/main.py` lines 161 and 175): no `timeout`. -/
def winSetCall : SubprocessCall := ⟨true, true, none⟩

/-- The `subprocess.run` calls in `src/main_macos.py` (`get_status`,
`enable_exit_node`, `disable_exit_node`): no `timeout`. -/
def macosCall : SubprocessCall := ⟨true, true, none⟩

/-- The `subprocess.run` call in `TailscaleToggle._run_tailscale` of the
bundled `src/dist/.../main_macos.py` (line 204): no `timeout`. -/
def macdistRunCall : SubprocessCall := ⟨true, true, none⟩

/-- C1 counterexample: in the status JSON `{"ExitNodeStatus": null}` the key
"ExitNodeStatus" is present, yet both variants' `get_status` return
`(False, None)` — contradicting the claim that presence of the key yields
`is_active = true`.  (Python's `data.get` cannot tell a stored `null` from
an absent key.) -/
theorem C1_counterexample :
    ([("ExitNodeStatus", Json.null)] : List (String × Json)).lookup "ExitNodeStatus"
        = some Json.null ∧
    get_status_win (SubprocResult.completed 0
        (PyOut.parsed (Json.obj [("ExitNodeStatus", Json.null)]))) = (false, Json.null) ∧
    get_status_linux (ExecOutcome.completed 0
        (PyOut.parsed (Json.obj [("ExitNodeStatus", Json.null)])) "")
        = (false, Json.null) :=
  ⟨rfl, rfl, rfl⟩

/-- C1 (amended): for every status invocation that exits 0 and whose output
parses as a JSON object, if the object maps "ExitNodeStatus" to an object
value, `get_status` returns `is_active = true` with that object's "ID"
value (the literal "Unknown" when absent) — except that the Linux variant
treats an empty object as falsy and reads it as inactive; in every other
case (key absent, value null, or value not an object) `get_status` returns
`(false, no identifier)`. -/
theorem C1_theorem (kvs : List (String × Json)) :
    (get_status_win (SubprocResult.completed 0 (PyOut.parsed (Json.obj kvs))),
      get_status_linux (ExecOutcome.completed 0 (PyOut.parsed (Json.obj kvs)) "")) =
    (match kvs.lookup "ExitNodeStatus" with
     | some (Json.obj inner) =>
       ((true, dictGetD inner "ID" (Json.str "Unknown")),
        if inner.isEmpty then (false, Json.null)
        else (true, dictGetD inner "ID" (Json.str "Unknown")))
     | _ => ((false, Json.null), (false, Json.null))) := by
  cases h : kvs.lookup "ExitNodeStatus" with
  | none => simp [get_status_win, get_status_linux, ts_run, dictGet, h, pyFalsy]
  | some v =>
    have hd : dictGet kvs "ExitNodeStatus" = v := by simp [dictGet, h]
    cases v <;> simp [get_status_win, get_status_linux, ts_run, hd, h, pyFalsy]
    rw [hd]

/-- C2 counterexample: in the Windows variant (`src/main.py`), with the
invalid configuration `exit_node_ip = ""`, `enable_exit_node` still invokes
the external binary (one `subprocess.run` attempt, with the set command)
and returns success when the command exits 0 — contradicting the claim
that it returns failure without invoking the binary. -/
theorem C2_counterexample :
    ("" : String).isEmpty = true ∧
    enable_exit_node_win "tailscale.exe" "" (SubprocResult.completed 0 PyOut.invalidJson)
      = (true, [["tailscale.exe", "set", "--exit-node="]]) :=
  ⟨rfl, rfl⟩

/-- C2 (amended): in the Linux variant, `enable_exit_node` with an invalid
configuration (exit-node identifier empty or equal to the sentinel
"YOUR_EXIT_NODE_IP_HERE") returns failure without attempting any
invocation of the external binary; the Windows and macOS variants perform
no such check. -/
theorem C2_theorem (exe ip : String) (o : ExecOutcome)
    (h : ip = "" ∨ ip = "YOUR_EXIT_NODE_IP_HERE") :
    enable_exit_node_linux (mkConfigLinux (ConfigLoad.loaded exe ip)) o = (false, []) := by
  rcases h with h | h <;> subst h <;> rfl

/-- Witness for C2: concrete invalid configuration (empty identifier). -/
theorem C2_theorem_witness :
    enable_exit_node_linux (mkConfigLinux (ConfigLoad.loaded "tailscale" ""))
      ExecOutcome.fileNotFound = (false, []) :=
  C2_theorem "tailscale" "" ExecOutcome.fileNotFound (Or.inl rfl)

/-- C3: on a user toggle request, the executor for the inverse of the
displayed state is invoked; if it reports success the displayed state flips
immediately; if it reports failure the displayed state is unchanged by the
toggle itself (`isOnAfterExec`), an error is surfaced, and an out-of-band
refresh is issued — in both the Windows and macOS variants. -/
theorem C3_theorem (isOn b : Bool) (e r : PyResult Bool) :
    (toggle_node_win isOn e r).op = (if isOn then Op.disable else Op.enable) ∧
    (toggle_node_macos isOn e r).op = (if isOn then Op.disable else Op.enable) ∧
    (toggle_node_win isOn (PyResult.ok true) r).isOnFinal = !isOn ∧
    (toggle_node_win isOn (PyResult.ok true) r).errorShown = false ∧
    (toggle_node_macos isOn (PyResult.ok true) r).isOnFinal = !isOn ∧
    (toggle_node_macos isOn (PyResult.ok true) r).errorShown = false ∧
    (toggle_node_win isOn (PyResult.ok false) (PyResult.ok b)).isOnAfterExec = isOn ∧
    (toggle_node_win isOn (PyResult.ok false) (PyResult.ok b)).errorShown = true ∧
    (toggle_node_win isOn (PyResult.ok false) (PyResult.ok b)).refreshIssued = true ∧
    (toggle_node_macos isOn (PyResult.ok false) (PyResult.ok b)).isOnAfterExec = isOn ∧
    (toggle_node_macos isOn (PyResult.ok false) (PyResult.ok b)).errorShown = true ∧
    (toggle_node_macos isOn (PyResult.ok false) (PyResult.ok b)).refreshIssued = true := by
  rcases e with a | _ <;> rcases r with c | _ <;> (try cases a) <;> (try cases c) <;>
    cases isOn <;> cases b <;> decide

/-- C4: every failing status invocation — non-zero exit code, output that is
not valid JSON, binary not found, timeout or any other raised exception —
yields `(False, None)` in both the Windows and Linux variants.  The embedded
functions are total, mirroring the source's catch-all exception handling:
no failure escapes the Status Reader boundary. -/
theorem C4_theorem (rc : Int) (hrc : rc ≠ 0) (out : PyOut) (err msg : String) :
    get_status_win SubprocResult.fileNotFound = (false, Json.null) ∧
    get_status_win SubprocResult.otherExc = (false, Json.null) ∧
    get_status_win (SubprocResult.completed rc out) = (false, Json.null) ∧
    get_status_win (SubprocResult.completed 0 PyOut.invalidJson) = (false, Json.null) ∧
    get_status_linux ExecOutcome.fileNotFound = (false, Json.null) ∧
    get_status_linux (ExecOutcome.timeoutExpired msg) = (false, Json.null) ∧
    get_status_linux (ExecOutcome.otherRaised msg) = (false, Json.null) ∧
    get_status_linux (ExecOutcome.completed rc out err) = (false, Json.null) ∧
    get_status_linux (ExecOutcome.completed 0 PyOut.invalidJson err) = (false, Json.null) := by
  refine ⟨rfl, rfl, ?_, rfl, rfl, rfl, rfl, ?_, rfl⟩ <;>
    simp [get_status_win, get_status_linux, ts_run, hrc]

/-- Witness for C4: concrete failing invocations (exit code 1). -/
theorem C4_theorem_witness :
    get_status_win (SubprocResult.completed 1 PyOut.invalidJson) = (false, Json.null) ∧
    get_status_linux (ExecOutcome.completed 1 PyOut.invalidJson "boom") = (false, Json.null) := by
  have h := C4_theorem 1 (by decide) PyOut.invalidJson "boom" "msg"
  exact ⟨h.2.2.1, h.2.2.2.2.2.2.2.1⟩

/-- C5 counterexample: a poll tick whose `is_active` reading equals the
last-displayed state still performs a presentation update (one
unconditional `update_ui` / widget reconfiguration) in all three variants —
contradicting the claim that such a tick performs no redraw. -/
theorem C5_counterexample :
    (refresh_status_win false false).uiCalls ≠ 0 ∧
    (refresh_status_linux true true).uiCalls ≠ 0 ∧
    (refresh_status_macdist false false).uiCalls ≠ 0 := by
  refine ⟨?_, ?_, ?_⟩ <;> decide

/-- C5 (amended): every poll tick updates the presentation unconditionally —
each tick performs exactly one `update_ui` / widget reconfiguration and
renders from the fresh `is_active` reading alone, never consulting the
previously displayed state. -/
theorem C5_theorem (s old old' : Bool) :
    (refresh_status_win s old).uiCalls = 1 ∧
    (refresh_status_linux s old).uiCalls = 1 ∧
    (refresh_status_macdist s old).uiCalls = 1 ∧
    (refresh_status_win s old).is_on = s ∧
    (refresh_status_win s old).shown = update_ui_win s ∧
    refresh_status_win s old = refresh_status_win s old' ∧
    refresh_status_linux s old = refresh_status_linux s old' ∧
    refresh_status_macdist s old = refresh_status_macdist s old' :=
  ⟨rfl, rfl, rfl, rfl, rfl, rfl, rfl, rfl⟩

/-- C6: in the bundled macOS variant, `_run_tailscale` with fuel 2 always
completes: if `_tried_start` is already set the command runs once with no
retry; if the output carries the GUI-down marker and `_tried_start` is not
yet set, the GUI is launched exactly once and the command retried exactly
once, and the retried invocation never retries again (2 CLI invocations, 1
GUI launch, even when the retried output also carries the marker). -/
theorem C6_theorem (oracle : Nat → CPStr) (idx : Nat) :
    run_tailscale oracle 2 idx true = some (oracle idx, true, 1, 0) ∧
    (guiFailure (oracle idx) = false →
      run_tailscale oracle 2 idx false = some (oracle idx, false, 1, 0)) ∧
    (guiFailure (oracle idx) = true →
      run_tailscale oracle 2 idx false = some (oracle (idx + 1), true, 2, 1)) := by
  refine ⟨?_, ?_, ?_⟩
  · simp [run_tailscale]
  · intro h; simp [run_tailscale, h]
  · intro h; simp [run_tailscale, h]

/-- Witness for C6: a stubborn oracle whose every output says the GUI
failed to start gets exactly one retry; a clean run gets none. -/
theorem C6_theorem_witness :
    run_tailscale (fun _ => ⟨1, "failed to start", ""⟩) 2 0 false =
      some (⟨1, "failed to start", ""⟩, true, 2, 1) ∧
    run_tailscale (fun _ => ⟨0, "", ""⟩) 2 0 false = some (⟨0, "", ""⟩, false, 1, 0) :=
  ⟨(C6_theorem (fun _ => ⟨1, "failed to start", ""⟩) 0).2.2 (by decide),
   (C6_theorem (fun _ => ⟨0, "", ""⟩) 0).2.1 (by decide)⟩

/-- C7 counterexample: the `subprocess.run` call in the Windows variant's
`get_status` passes no `timeout` keyword, so that invocation is unbounded —
contradicting the claim that every variant bounds its invocations. -/
theorem C7_counterexample :
    winStatusCall.timeout = none ∧ macosCall.timeout = none :=
  ⟨rfl, rfl⟩

/-- C7 (amended): only the Linux variant's `_run` bounds the binary
invocation with a timeout (10 seconds); the Windows status and set calls,
the macOS script calls and the bundled macOS `_run_tailscale` call all pass
no timeout. -/
theorem C7_theorem :
    linuxRunCall.timeout = some 10 ∧
    winStatusCall.timeout = none ∧
    winSetCall.timeout = none ∧
    macosCall.timeout = none ∧
    macdistRunCall.timeout = none :=
  ⟨rfl, rfl, rfl, rfl, rfl⟩

/-- C8: for completed set-commands, the Toggle Executor's operations report
success exactly when the exit code is 0 — in particular `disable` consults
no prior state (its embedding takes none), so disabling when already
disabled still succeeds whenever the command exits 0.  The Linux `enable`
needs a valid configuration to reach the binary at all. -/
theorem C8_theorem (rc : Int) (out : PyOut) (err exe ip : String)
    (cfg : LinuxConfig) (hv : cfg.valid = true) :
    ((disable_exit_node_win exe (SubprocResult.completed rc out)).1 = true ↔ rc = 0) ∧
    ((enable_exit_node_win exe ip (SubprocResult.completed rc out)).1 = true ↔ rc = 0) ∧
    ((disable_exit_node_linux cfg (ExecOutcome.completed rc out err)).1 = true ↔ rc = 0) ∧
    ((enable_exit_node_linux cfg (ExecOutcome.completed rc out err)).1 = true ↔ rc = 0) := by
  simp [disable_exit_node_win, enable_exit_node_win, disable_exit_node_linux,
    enable_exit_node_linux, ts_run, hv]

/-- Witness for C8: a concrete valid configuration and an exit-0 disable. -/
theorem C8_theorem_witness :
    (disable_exit_node_linux (mkConfigLinux (ConfigLoad.loaded "tailscale" "100.1.2.3"))
      (ExecOutcome.completed 0 PyOut.invalidJson "")).1 = true :=
  ((C8_theorem 0 PyOut.invalidJson "" "tailscale.exe" "100.1.2.3"
    (mkConfigLinux (ConfigLoad.loaded "tailscale" "100.1.2.3")) rfl).2.2.1).mpr rfl

/-- C9: in the Windows variant, `toggle_node`'s `finally` clause restores
the toggle button to "normal" on every exit path — success, reported
failure, and raised exception alike. -/
theorem C9_theorem (isOn : Bool) (e r : PyResult Bool) :
    (toggle_node_win isOn e r).btnFinal = BtnState.normal := by
  rcases e with a | _ <;> rcases r with c | _ <;> (try cases a) <;> (try cases c) <;> rfl

/-- C10: the Linux command runner `_run` is total — it always yields a
`CompletedProcess` (the embedding returns one on every input and never
raises): a missing binary yields return code 127, a timeout or any other
execution failure yields return code 1, so every downstream
`returncode == 0` success check is false on any execution failure. -/
theorem C10_theorem (rc : Int) (out : PyOut) (err msg : String) :
    ts_run (ExecOutcome.completed rc out err) = ⟨rc, out, err⟩ ∧
    (ts_run ExecOutcome.fileNotFound).returncode = 127 ∧
    (ts_run (ExecOutcome.timeoutExpired msg)).returncode = 1 ∧
    (ts_run (ExecOutcome.otherRaised msg)).returncode = 1 ∧
    ((ts_run ExecOutcome.fileNotFound).returncode == 0) = false ∧
    ((ts_run (ExecOutcome.timeoutExpired msg)).returncode == 0) = false ∧
    ((ts_run (ExecOutcome.otherRaised msg)).returncode == 0) = false :=
  ⟨rfl, rfl, rfl, rfl, rfl, rfl, rfl⟩
